import Mathlib

/-!
Verification development for the erxes-api facebook webhook tracker
(src/unnamed/part_000, the SaveWebhookResponse class and its helpers).

The TypeScript source is embedded shallowly:
- loosely typed optional fields become Option values;
- JavaScript truthiness on strings (undefined and "" are falsy) is the
  function truthyStr; strict inequality (!==) on possibly-undefined strings
  is decidable inequality on Option String;
- the mongo collections become lists inside a DB record; findOne with a
  sort createdAt: -1 becomes the last matching element of the insertion
  ordered list; updateMany becomes a map;
- stateful methods become explicit state passing DB → α × DB × List String,
  where the List String records external API calls and pub/sub
  notifications as effect labels; methods that can throw return
  Except String instead (a thrown error discards the partial state in this
  model; no settled claim inspects state after a throw);
- the external graph API (facebookTracker.ts, an external collaborator) is
  an Env record of total functions.

Model functions that live in db/models or data/constants (absent from the
provided sources) are modelled from the spec and say so in their doc
comments.
-/

/-- JS truthiness of an optional string: undefined and "" are falsy. -/
def truthyStr : Option String → Bool
  | none => false
  | some s => s ≠ ""

/-- JS "a || b" where a is an optional string and b a string default. -/
def jsOrStr (a : Option String) (b : String) : String :=
  if truthyStr a then a.getD "" else b

/-- Facebook user reference { id, name } (IFbUser). -/
structure IFbUser where
  id : String
  name : String
deriving DecidableEq, Repr

/- Modelled from the spec: data/constants is absent from src; section 3
fixes the conversation status set as NEW, OPEN, CLOSED. -/
namespace CONVERSATION_STATUSES

def NEW : String := "new"

def OPEN : String := "open"

def CLOSED : String := "closed"

end CONVERSATION_STATUSES

/- Modelled from the spec: data/constants is absent from src; the two
conversation kinds are MESSENGER and FEED. -/
namespace FACEBOOK_DATA_KINDS

def MESSENGER : String := "messenger"

def FEED : String := "feed"

end FACEBOOK_DATA_KINDS

/-- Modelled from the spec: data/constants is absent from src; section 4.4
lists the post taxonomy as status, photo, video, link. -/
def FACEBOOK_POST_TYPES : List String := ["status", "photo", "video", "link"]

/-- Per message facebook payload (IMsgFacebook from
db/models/definitions/conversationMessages). Counters follow mongo
semantics: a missing likeCount behaves as 0 under an increment, so it is a
plain Int; reactions is the map reactionType to reactor list, as an
association list. -/
structure IMsgFacebook where
  postId : Option String := none
  item : Option String := none
  commentId : Option String := none
  parentId : Option String := none
  isPost : Option Bool := none
  photo : Option String := none
  video : Option String := none
  link : Option String := none
  photos : Option (List String) := none
  createdTime : Option String := none
  messageId : Option String := none
  senderId : Option String := none
  senderName : Option String := none
  commentCount : Option Nat := none
  likeCount : Int := 0
  reactions : List (String × List IFbUser) := []
deriving DecidableEq, Repr

/-- Input of generatePostParams (IPostParams), restricted to the fields the
function reads. -/
structure IPostParams where
  post_id : Option String := none
  video_id : Option String := none
  link : Option String := none
  photo_id : Option String := none
  item : Option String := none
  photos : Option (List String) := none
  created_time : Option String := none
deriving DecidableEq, Repr

/-- Input of generateCommentParams (ICommentParams), restricted to the
fields the function reads; parent holds the id of the explicit parent
object when present. -/
structure ICommentParams where
  id : Option String := none
  parent : Option String := none
  photo : Option String := none
  video : Option String := none
  post_id : Option String := none
  parent_id : Option String := none
  item : Option String := none
  comment_id : Option String := none
  created_time : Option String := none
deriving DecidableEq, Repr

/-- generatePostParams: facebook data for a post message. A link is stored
as video when a video_id accompanies it, as photo when a photo_id does, and
as a plain link otherwise; a photos array is copied whenever present (JS
arrays are truthy even when empty). -/
def generatePostParams (postParams : IPostParams) : IMsgFacebook :=
  let doc : IMsgFacebook :=
    { postId := postParams.post_id, item := postParams.item, isPost := some true }
  let doc :=
    if truthyStr postParams.link then
      if truthyStr postParams.video_id then { doc with video := postParams.link }
      else if truthyStr postParams.photo_id then { doc with photo := postParams.link }
      else { doc with link := postParams.link }
    else doc
  let doc :=
    if truthyStr postParams.created_time then { doc with createdTime := postParams.created_time }
    else doc
  let doc :=
    match postParams.photos with
    | some ps => { doc with photos := some ps }
    | none => doc
  doc

/-- generateCommentParams: facebook data for a comment message. commentId
prefers id over comment_id; parentId is first set from an explicit parent
object and then, whenever post_id differs from parent_id, overwritten with
parent_id (the second assignment is unconditional in the source). -/
def generateCommentParams (commentParams : ICommentParams) : IMsgFacebook :=
  let doc : IMsgFacebook :=
    { postId := commentParams.post_id
      item := commentParams.item
      commentId := if truthyStr commentParams.id then commentParams.id else commentParams.comment_id }
  let doc :=
    match commentParams.parent with
    | some pid => { doc with parentId := some pid }
    | none => doc
  let doc :=
    if commentParams.post_id ≠ commentParams.parent_id then { doc with parentId := commentParams.parent_id }
    else doc
  let doc := if truthyStr commentParams.photo then { doc with photo := commentParams.photo } else doc
  let doc := if truthyStr commentParams.video then { doc with video := commentParams.video } else doc
  let doc :=
    if truthyStr commentParams.created_time then { doc with createdTime := commentParams.created_time }
    else doc
  doc

/-- Conversation level facebook data (IFacebook from
db/models/definitions/conversations). -/
structure ConvFacebookData where
  kind : String
  senderId : String
  senderName : Option String := none
  recipientId : Option String := none
  postId : Option String := none
  pageId : Option String := none
deriving DecidableEq, Repr

/-- A stored conversation document. Ids are natural numbers handed out by a
fresh-id counter in the DB model. -/
structure Conversation where
  _id : Nat
  integrationId : String
  customerId : Nat
  status : String
  content : String
  messageCount : Nat
  facebookData : ConvFacebookData
deriving DecidableEq, Repr

/-- An attachment as stored on a message: { type, url }. -/
structure AttachmentOut where
  type : String
  url : String
deriving DecidableEq, Repr

/-- A stored conversation message document. -/
structure FbMessage where
  _id : Nat
  conversationId : Nat
  customerId : Nat
  content : String
  attachments : List AttachmentOut := []
  facebookData : IMsgFacebook
deriving DecidableEq, Repr

/-- A stored customer document; facebookId is the platform user id stored
under facebookData.id in the source. -/
structure Customer where
  _id : Nat
  firstName : Option String
  lastName : String
  integrationId : String
  avatar : String
  facebookId : String
deriving DecidableEq, Repr

/-- The persistence store: the mongo collections as insertion ordered
lists, together with fresh-id counters. -/
structure DB where
  conversations : List Conversation
  messages : List FbMessage
  customers : List Customer
  activityLogs : List String
  nextConvId : Nat
  nextMsgId : Nat
  nextCustomerId : Nat
deriving DecidableEq, Repr

/-- The empty store. -/
def DB.empty : DB :=
  { conversations := [], messages := [], customers := [], activityLogs := []
    nextConvId := 0, nextMsgId := 0, nextCustomerId := 0 }

/-- Integration facebook data: the owned page ids. -/
structure FacebookIntegrationData where
  pageIds : List String
deriving DecidableEq, Repr

/-- An integration document (only the fields the tracker reads). -/
structure Integration where
  _id : String
  facebookData : Option FacebookIntegrationData
deriving DecidableEq, Repr

/-- Profile object returned by the graph API for a user id; messenger
responses omit name, feed responses provide it. -/
structure Profile where
  first_name : Option String := none
  last_name : Option String := none
  name : Option String := none
deriving DecidableEq, Repr

/-- Post object returned by getPostInfo: the fields restoreParentPost and
generatePostParams read from it. commentsTotal models
comments.summary.total_count when the comments summary is present. -/
structure PostInfoResp where
  id : String
  message : Option String := none
  fromId : String
  fromName : String
  commentsTotal : Option Nat := none
  video_id : Option String := none
  link : Option String := none
  photo_id : Option String := none
  photos : Option (List String) := none
  created_time : Option String := none
deriving DecidableEq, Repr

/-- Comment object returned by getCommentInfo / getComments: the fields
createMessageFromComments and generateCommentParams read from it; parent
holds the id of the parent comment object when present. -/
structure CommentResp where
  id : String
  message : Option String := none
  attachment : Option String := none
  fromId : String
  fromName : String
  parent : Option String := none
  photo : Option String := none
  video : Option String := none
  post_id : Option String := none
  parent_id : Option String := none
  comment_id : Option String := none
  created_time : Option String := none
deriving DecidableEq, Repr

/-- The external graph API (facebookTracker.ts, an external collaborator)
as total functions. pageTokenResp is none when the page access token
request comes back as the error string the feed path checks for. -/
structure Env where
  pageTokenResp : Option String
  profile : String → Profile
  profilePic : String → Option String
  postObjectId : String → String
  postInfo : String → PostInfoResp
  commentInfo : String → CommentResp
  commentsOf : String → List CommentResp

/-- Message attachment on an inbound messenger event; payloadUrl models
attachment.payload.url when the payload is present. -/
structure MessagingAttachment where
  type : String
  payloadUrl : Option String := none
deriving DecidableEq, Repr

/-- The message part of an inbound messenger event. -/
structure MessengerMessage where
  mid : String
  text : Option String := none
  attachments : Option (List MessagingAttachment) := none
deriving DecidableEq, Repr

/-- An inbound messenger event; events without a message part are skipped
by viaMessengerEvent. -/
structure MessagingEvent where
  senderId : String
  senderName : Option String := none
  recipientId : String
  message : Option MessengerMessage := none
deriving DecidableEq, Repr

/-- The value of an inbound feed change: the union of the comment, post and
reaction shapes, all fields optional except the sender. -/
structure FeedValue where
  item : Option String := none
  verb : Option String := none
  comment_id : Option String := none
  post_id : Option String := none
  parent_id : Option String := none
  parent : Option String := none
  id : Option String := none
  video_id : Option String := none
  link : Option String := none
  photo_id : Option String := none
  photos : Option (List String) := none
  created_time : Option String := none
  photo : Option String := none
  video : Option String := none
  reaction_type : Option String := none
  fromId : String
  fromName : String
  message : Option String := none
deriving DecidableEq, Repr

/-- One entry of a webhook delivery. -/
structure Entry where
  id : String
  messaging : Option (List MessagingEvent) := none
  changes : Option (List FeedValue) := none
deriving DecidableEq, Repr

/-- A top-level webhook delivery { object, entry }. -/
structure WebhookData where
  object : String
  entry : List Entry
deriving DecidableEq, Repr

namespace Conversations

/-- findOne with sort createdAt: -1: the most recently inserted matching
conversation. -/
def findOneLatest (db : DB) (sel : Conversation → Bool) : Option Conversation :=
  (db.conversations.filter sel).getLast?

/-- Modelled from the spec: Conversations.createConversation lives in
db/models, absent from src. Sections 3 and 4.2: persist a new conversation
under a fresh id; the message count starts at zero. -/
def createConversation (db : DB) (integrationId : String) (customerId : Nat)
    (status content : String) (facebookData : ConvFacebookData) : Conversation × DB :=
  let c : Conversation :=
    { _id := db.nextConvId, integrationId, customerId, status, content
      messageCount := 0, facebookData }
  (c, { db with conversations := db.conversations ++ [c], nextConvId := db.nextConvId + 1 })

/-- Modelled from the spec: Conversations.reopen lives in db/models, absent
from src. Section 4.2: reopen is a pure status transition to OPEN that
leaves everything else intact; it returns the updated document. -/
def reopen (db : DB) (cid : Nat) : Option Conversation × DB :=
  let convs := db.conversations.map
    (fun x => if x._id = cid then { x with status := CONVERSATION_STATUSES.OPEN } else x)
  (convs.find? (fun x => x._id = cid), { db with conversations := convs })

end Conversations

namespace ConversationMessages

/-- Modelled from the spec: ConversationMessages.createMessage lives in
db/models, absent from src. Sections 4.4 and 8: persist one message under a
fresh id, attached to the conversation and customer; the message count of
the owning conversation grows by one. -/
def createMessage (db : DB) (conversationId customerId : Nat) (content : String)
    (attachments : List AttachmentOut) (facebookData : IMsgFacebook) : FbMessage × DB :=
  let m : FbMessage :=
    { _id := db.nextMsgId, conversationId, customerId, content, attachments, facebookData }
  (m, { db with
        messages := db.messages ++ [m]
        nextMsgId := db.nextMsgId + 1
        conversations := db.conversations.map
          (fun c => if c._id = conversationId then { c with messageCount := c.messageCount + 1 } else c) })

end ConversationMessages

namespace Customers

/-- Modelled from the spec: Customers.createCustomer lives in db/models,
absent from src. Section 3: persist one customer under a fresh id with the
given profile fields. -/
def createCustomer (db : DB) (firstName : Option String) (lastName : String)
    (integrationId : String) (avatar : String) (facebookId : String) : Customer × DB :=
  let c : Customer := { _id := db.nextCustomerId, firstName, lastName, integrationId, avatar, facebookId }
  (c, { db with customers := db.customers ++ [c], nextCustomerId := db.nextCustomerId + 1 })

end Customers

namespace ActivityLogs

/-- Modelled from the spec: ActivityLogs.createConversationLog lives in
db/models, absent from src. Section 3: append-only audit entry for a
conversation creation. -/
def createConversationLog (db : DB) (conversationId : Nat) : DB :=
  { db with activityLogs := db.activityLogs ++ ["conversation:" ++ toString conversationId] }

/-- Modelled from the spec: ActivityLogs.createCustomerRegistrationLog lives
in db/models, absent from src. Section 3: append-only audit entry for a
customer registration. -/
def createCustomerRegistrationLog (db : DB) (customerId : Nat) : DB :=
  { db with activityLogs := db.activityLogs ++ ["customer:" ++ toString customerId] }

end ActivityLogs

/-- The message selector handleReactions builds: empty when neither id is
present, else keyed by post id or by comment id. -/
inductive MsgSelector where
  | empty : MsgSelector
  | byPostId : String → MsgSelector
  | byCommentId : String → MsgSelector
deriving DecidableEq, Repr

/-- Mongo match of a selector against a stored message. -/
def matchesSel : MsgSelector → FbMessage → Bool
  | .empty, _ => true
  | .byPostId p, m => m.facebookData.postId = some p
  | .byCommentId c, m => m.facebookData.commentId = some c

/-- The messenger findSelector: kind MESSENGER and either order of the
sender and recipient ids. -/
def messengerFindSelector (senderId recipientId : String) (c : Conversation) : Bool :=
  c.facebookData.kind = FACEBOOK_DATA_KINDS.MESSENGER &&
    ((c.facebookData.senderId = senderId && c.facebookData.recipientId = some recipientId) ||
     (c.facebookData.senderId = recipientId && c.facebookData.recipientId = some senderId))

namespace SaveWebhookResponse

/-- updateLikeCount: increment by 1 for verb add, else decrement by 1, on
every message matching the selector. -/
def updateLikeCount (type : String) (selector : MsgSelector) (db : DB) : DB :=
  let count : Int := if type = "add" then 1 else -1
  let msgs := db.messages.map (fun m =>
    if matchesSel selector m then
      { m with facebookData := { m.facebookData with likeCount := m.facebookData.likeCount + count } }
    else m)
  { db with messages := msgs }

/-- Mongo push onto reactions.k: append to the list at key k, creating the
key when absent. -/
def pushReaction (rs : List (String × List IFbUser)) (k : String) (u : IFbUser) :
    List (String × List IFbUser) :=
  if rs.any (fun p => p.1 = k) then rs.map (fun p => if p.1 = k then (p.1, p.2 ++ [u]) else p)
  else rs ++ [(k, [u])]

/-- Mongo pull from reactions.k with the partial match { id: uid }: drop
every element whose id equals uid. -/
def pullReaction (rs : List (String × List IFbUser)) (k : String) (uid : String) :
    List (String × List IFbUser) :=
  rs.map (fun p => if p.1 = k then (p.1, p.2.filter (fun u => u.id ≠ uid)) else p)

/-- updateReactions: on verb add push the actor onto reactions.reactionType,
otherwise pull by the actor id, on every message matching the selector. -/
def updateReactions (type : String) (selector : MsgSelector) (reactionType : String)
    (fromUser : IFbUser) (db : DB) : DB :=
  if type = "add" then
    let msgs := db.messages.map (fun m =>
      if matchesSel selector m then
        { m with facebookData := { m.facebookData with
            reactions := pushReaction m.facebookData.reactions reactionType fromUser } }
      else m)
    { db with messages := msgs }
  else
    let msgs := db.messages.map (fun m =>
      if matchesSel selector m then
        { m with facebookData := { m.facebookData with
            reactions := pullReaction m.facebookData.reactions reactionType fromUser.id } }
      else m)
    { db with messages := msgs }

/-- handleReactions: build the selector (post_id first, then comment_id, the
later assignment overwriting), then route to the like counter or the
reaction list update. -/
def handleReactions (value : FeedValue) (db : DB) : DB × List String :=
  let selector : MsgSelector := .empty
  let selector := if truthyStr value.post_id then MsgSelector.byPostId (value.post_id.getD "") else selector
  let selector := if truthyStr value.comment_id then MsgSelector.byCommentId (value.comment_id.getD "") else selector
  let db1 := if value.item = some "like" then updateLikeCount (value.verb.getD "") selector db else db
  let db2 :=
    if value.item = some "reaction" then
      updateReactions (value.verb.getD "") selector (jsOrStr value.reaction_type "like")
        { id := value.fromId, name := value.fromName } db1
    else db1
  (db2, [])

end SaveWebhookResponse

/-- getOrCreateCustomer: look up by platform user id; on a miss fetch the
profile (firstName prefers first_name over name, lastName defaults to the
empty string), fetch the avatar best-effort, create the customer and log
the registration. The page token passed by the call sites only feeds the
graph calls, which the Env models by id, so it is not a parameter here. -/
def getOrCreateCustomer (env : Env) (fbUserId : String) (integrationId : String) (db : DB) :
    Customer × DB × List String :=
  match db.customers.find? (fun c => c.facebookId = fbUserId) with
  | some customer => (customer, db, [])
  | none =>
    let res := env.profile fbUserId
    let firstName := if truthyStr res.first_name then res.first_name else res.name
    let lastName := res.last_name.getD ""
    let (createdCustomer, db1) :=
      Customers.createCustomer db firstName lastName integrationId
        ((env.profilePic fbUserId).getD "") fbUserId
    let db2 := ActivityLogs.createCustomerRegistrationLog db1 createdCustomer._id
    (createdCustomer, db2, ["api:profile/" ++ fbUserId, "api:picture/" ++ fbUserId])

namespace SaveWebhookResponse

/-- createMessage: resolve the customer (fetching a page token first),
persist the message, update the conversation content snapshot, publish the
two notifications; returns the new message id. -/
def createMessage (env : Env) (integration : Integration) (conversation : Conversation)
    (userId content : String) (attachments : List AttachmentOut) (facebookData : IMsgFacebook)
    (db : DB) : Nat × DB × List String :=
  let (customer, db1, ef1) := getOrCreateCustomer env userId integration._id db
  let (message, db2) :=
    ConversationMessages.createMessage db1 conversation._id customer._id content attachments facebookData
  let convs3 := db2.conversations.map
    (fun c => if c._id = conversation._id then { c with content := content } else c)
  let db3 := { db2 with conversations := convs3 }
  (message._id, db3,
    ["api:pageToken"] ++ ef1 ++
      ["publishClient:" ++ toString message._id, "publish:" ++ toString message._id])

/-- createMessageFromComments: walk the comment list; a comment without an
id ends the walk (the source returns from the whole loop); a comment whose
id is already recorded in this conversation is skipped; otherwise a message
is created from its comment params. -/
def createMessageFromComments (env : Env) (integration : Integration)
    (conversation : Conversation) (userId : String) :
    List CommentResp → DB → DB × List String
  | [], db => (db, [])
  | comment :: rest, db =>
    if comment.id = "" then (db, [])
    else
      match db.messages.find?
          (fun m => m.facebookData.commentId = some comment.id && m.conversationId = conversation._id) with
      | some _ => createMessageFromComments env integration conversation userId rest db
      | none =>
        let params := generateCommentParams
          { id := some comment.id, parent := comment.parent, photo := comment.photo
            video := comment.video, post_id := comment.post_id, parent_id := comment.parent_id
            item := some "comment", comment_id := comment.comment_id
            created_time := comment.created_time }
        let fbData : IMsgFacebook :=
          { params with senderId := some comment.fromId, senderName := some comment.fromName }
        let content := if truthyStr comment.message then comment.message.getD "" else comment.attachment.getD ""
        let r1 := createMessage env integration conversation userId content [] fbData db
        let r2 := createMessageFromComments env integration conversation userId rest r1.2.1
        (r2.1, r1.2.2 ++ r2.2)

/-- restoreParentPost: nothing to do without a truthy postId or when the
item is not a comment, or when this conversation already holds a message
flagged isPost for this postId. Otherwise fetch the post, ingest it as the
root message (its stored postId is the id the graph lookup returns, not the
queried one), then, when the triggering comment has a parent, backfill the
children of that parent followed by the parent itself. -/
def restoreParentPost (env : Env) (integration : Integration) (conversation : Conversation)
    (userId : String) (facebookData : IMsgFacebook) (db : DB) : Bool × DB × List String :=
  if ¬ truthyStr facebookData.postId then (false, db, [])
  else if facebookData.item ≠ some "comment" then (false, db, [])
  else
    let postId := facebookData.postId.getD ""
    match db.messages.find?
        (fun m => m.conversationId = conversation._id &&
          m.facebookData.isPost = some true && m.facebookData.postId = some postId) with
    | some _ => (false, db, [])
    | none =>
      let postResponse := env.postInfo postId
      let postParams := generatePostParams
        { post_id := some postResponse.id, video_id := postResponse.video_id
          link := postResponse.link, photo_id := postResponse.photo_id
          item := some "status", photos := postResponse.photos
          created_time := postResponse.created_time }
      let rootFbData : IMsgFacebook :=
        { postParams with
            senderId := some postResponse.fromId
            senderName := some postResponse.fromName
            commentCount := some (postResponse.commentsTotal.getD 0) }
      let r1 :=
        createMessage env integration conversation userId (jsOrStr postResponse.message "...")
          [] rootFbData db
      let commentResponse := env.commentInfo (facebookData.commentId.getD "")
      match commentResponse.parent with
      | none =>
        (true, r1.2.1, ["api:pageToken", "api:postInfo/" ++ postId] ++ r1.2.2 ++
          ["api:commentInfo/" ++ facebookData.commentId.getD ""])
      | some parentId0 =>
        let parentCommentResponse := env.commentInfo parentId0
        let parentCommentComments := env.commentsOf parentCommentResponse.id
        let r2 := createMessageFromComments env integration conversation userId
          (parentCommentComments ++ [parentCommentResponse]) r1.2.1
        (true, r2.1, ["api:pageToken", "api:postInfo/" ++ postId] ++ r1.2.2 ++
          ["api:commentInfo/" ++ facebookData.commentId.getD "",
           "api:commentInfo/" ++ parentId0, "api:comments/" ++ parentCommentResponse.id] ++ r2.2)

end SaveWebhookResponse

/-- Parameters of getOrCreateConversation (IGetOrCreateConversationParams);
findSelector is the optional mongo selector as a predicate. -/
structure IGetOrCreateConversationParams where
  findSelector : Option (Conversation → Bool) := none
  status : String
  senderId : String
  facebookData : ConvFacebookData
  content : String
  attachments : List AttachmentOut := []
  msgFacebookData : IMsgFacebook

namespace SaveWebhookResponse

/-- The tail both branches of getOrCreateConversation share: restore the
parent post, then create the triggering message. -/
def finishConversation (env : Env) (integration : Integration) (conversation : Conversation)
    (senderId content : String) (attachments : List AttachmentOut)
    (msgFacebookData : IMsgFacebook) (db : DB) : Nat × DB × List String :=
  let r1 := restoreParentPost env integration conversation senderId msgFacebookData db
  let r2 :=
    createMessage env integration conversation senderId content attachments msgFacebookData r1.2.1
  (r2.1, r2.2.1, r1.2.2 ++ r2.2.2)

/-- The create branch of getOrCreateConversation: resolve the customer
first (as the source does), then require the current page id, create the
conversation stamped with it, log, and finish. -/
def createConversationBranch (env : Env) (integration : Integration)
    (currentPageId : Option String) (params : IGetOrCreateConversationParams) (db : DB) :
    Except String (Nat × DB × List String) :=
  let rc := getOrCreateCustomer env params.senderId integration._id db
  match currentPageId with
  | none => .error "getOrCreateConversation: Could not set current page id"
  | some pageId =>
    let rv :=
      Conversations.createConversation rc.2.1 integration._id rc.1._id params.status
        params.content { params.facebookData with pageId := some pageId }
    let db3 := ActivityLogs.createConversationLog rv.2 rv.1._id
    let rf := finishConversation env integration rv.1 params.senderId
      params.content params.attachments params.msgFacebookData db3
    .ok (rf.1, rf.2.1, ["api:pageToken"] ++ rc.2.2 ++ rf.2.2)

/-- getOrCreateConversation: look up the most recent match of the selector
when one is given; create a new conversation when there is no match or the
match has a nonzero message count above one and is closed; otherwise reopen
the match. Either way restore the parent post and create the message. -/
def getOrCreateConversation (env : Env) (integration : Integration)
    (currentPageId : Option String) (params : IGetOrCreateConversationParams) (db : DB) :
    Except String (Nat × DB × List String) :=
  let conversationOpt :=
    match params.findSelector with
    | some sel => Conversations.findOneLatest db sel
    | none => none
  match conversationOpt with
  | none => createConversationBranch env integration currentPageId params db
  | some c =>
    if c.messageCount ≠ 0 ∧ (1 < c.messageCount ∧ c.status = CONVERSATION_STATUSES.CLOSED) then
      createConversationBranch env integration currentPageId params db
    else
      match (Conversations.reopen db c._id).1 with
      | none => .error "createMessage: Conversation not found"
      | some conversation =>
        let rf := finishConversation env integration conversation params.senderId
          params.content params.attachments params.msgFacebookData (Conversations.reopen db c._id).2
        .ok (rf.1, rf.2.1, rf.2.2)

/-- getOrCreateConversationByMessenger: skip silently when a message with
this mid is already recorded, otherwise resolve the conversation through
the order-insensitive sender/recipient selector and ingest. Returns the new
message id or none on the silent skip. -/
def getOrCreateConversationByMessenger (env : Env) (integration : Integration)
    (currentPageId : Option String) (event : MessagingEvent) (db : DB) :
    Except String (Option Nat × DB × List String) :=
  match event.message with
  | none => .ok (none, db, [])
  | some msg =>
    let senderId := event.senderId
    let senderName := event.senderName
    let recipientId := event.recipientId
    let messageId := msg.mid
    let messageText := jsOrStr msg.text "..."
    let attachments := (msg.attachments.getD []).map
      (fun a => { type := a.type, url := a.payloadUrl.getD "" : AttachmentOut })
    match db.messages.find? (fun m => m.facebookData.messageId = some messageId) with
    | some _ => .ok (none, db, [])
    | none =>
      match getOrCreateConversation env integration currentPageId
        { findSelector := some (messengerFindSelector senderId recipientId)
          status := CONVERSATION_STATUSES.NEW
          senderId
          facebookData :=
            { kind := FACEBOOK_DATA_KINDS.MESSENGER, senderId, senderName
              recipientId := some recipientId }
          content := messageText
          attachments
          msgFacebookData := { messageId := some messageId } } db with
      | .error e => .error e
      | .ok (mid, db1, ef) => .ok (some mid, db1, ef)

/-- getOrCreateConversationByFeed: only verb add is processed; a comment
whose comment id is already recorded is skipped; like and reaction items go
to handleReactions; otherwise the stable post id is fetched, the status is
CLOSED for self-authored content, and the event is ingested without a find
selector (the source passes none on the feed path). -/
def getOrCreateConversationByFeed (env : Env) (integration : Integration)
    (currentPageId : Option String) (value : FeedValue) (db : DB) :
    Except String (Option Nat × DB × List String) :=
  match integration.facebookData with
  | none => .error "getOrCreateConversationByFeed: Integration doesnt have facebookData"
  | some integFbData =>
    if value.verb ≠ some "add" then .ok (none, db, [])
    else
      let isCommentWithId := value.item = some "comment" && truthyStr value.comment_id
      if isCommentWithId &&
          (db.messages.find? (fun m => m.facebookData.commentId = value.comment_id)).isSome then
        .ok (none, db, [])
      else
        let msgFacebookData :=
          if isCommentWithId then
            generateCommentParams
              { id := value.id, parent := value.parent, photo := value.photo
                video := value.video, post_id := value.post_id, parent_id := value.parent_id
                item := value.item, comment_id := value.comment_id
                created_time := value.created_time }
          else {}
        let msgFacebookData :=
          if (value.item.map (fun it => FACEBOOK_POST_TYPES.contains it)).getD false then
            generatePostParams
              { post_id := value.post_id, video_id := value.video_id, link := value.link
                photo_id := value.photo_id, item := value.item, photos := value.photos
                created_time := value.created_time }
          else msgFacebookData
        if value.item = some "like" || value.item = some "reaction" then
          let rh := handleReactions value db
          .ok (none, rh.1, rh.2)
        else
          let senderName := value.fromName
          let senderId := value.fromId
          let messageText := jsOrStr value.message "..."
          match env.pageTokenResp with
          | none => .error "getOrCreateConversationByFeed: Could not get Page access token"
          | some _ =>
            let postId0 := value.post_id.getD ""
            let postId := env.postObjectId postId0
            let status :=
              if integFbData.pageIds.contains senderId then CONVERSATION_STATUSES.CLOSED
              else CONVERSATION_STATUSES.NEW
            match getOrCreateConversation env integration currentPageId
              { findSelector := none
                status
                senderId
                facebookData :=
                  { kind := FACEBOOK_DATA_KINDS.FEED, senderId
                    senderName := some senderName, postId := some postId }
                content := messageText
                msgFacebookData :=
                  { msgFacebookData with
                      senderId := some senderId, senderName := some senderName } } db with
            | .error e => .error e
            | .ok (mid, db1, ef) =>
              .ok (some mid, db1, ["api:pageToken", "api:get/" ++ postId0] ++ ef)

/-- viaMessengerEvent: dispatch each messaging element that carries a
message part. -/
def viaMessengerEvent (env : Env) (integration : Integration) (currentPageId : Option String) :
    List MessagingEvent → DB → Except String (DB × List String)
  | [], db => .ok (db, [])
  | e :: rest, db =>
    if e.message.isSome then
      match getOrCreateConversationByMessenger env integration currentPageId e db with
      | .error err => .error err
      | .ok (_, db1, ef1) =>
        match viaMessengerEvent env integration currentPageId rest db1 with
        | .error err => .error err
        | .ok (db2, ef2) => .ok (db2, ef1 ++ ef2)
    else viaMessengerEvent env integration currentPageId rest db

/-- viaFeedEvent: dispatch each change value to the feed handler. -/
def viaFeedEvent (env : Env) (integration : Integration) (currentPageId : Option String) :
    List FeedValue → DB → Except String (DB × List String)
  | [], db => .ok (db, [])
  | v :: rest, db =>
    match getOrCreateConversationByFeed env integration currentPageId v db with
    | .error err => .error err
    | .ok (_, db1, ef1) =>
      match viaFeedEvent env integration currentPageId rest db1 with
      | .error err => .error err
      | .ok (db2, ef2) => .ok (db2, ef1 ++ ef2)

/-- The entry loop of start: an entry whose id is not among the owned page
ids makes the whole loop return immediately (the source returns null from
start there); otherwise the entry id becomes the current page id and its
messaging and changes arrays are dispatched, then the next entry. -/
def startEntries (env : Env) (integration : Integration) (fd : FacebookIntegrationData) :
    List Entry → DB → Except String (DB × List String)
  | [], db => .ok (db, [])
  | entry :: rest, db =>
    if ¬ fd.pageIds.contains entry.id then .ok (db, [])
    else
      let currentPageId := some entry.id
      let afterMessaging :=
        match entry.messaging with
        | some events => viaMessengerEvent env integration currentPageId events db
        | none => .ok (db, [])
      match afterMessaging with
      | .error err => .error err
      | .ok (db1, ef1) =>
        let afterChanges :=
          match entry.changes with
          | some changes => viaFeedEvent env integration currentPageId changes db1
          | none => .ok (db1, [])
        match afterChanges with
        | .error err => .error err
        | .ok (db2, ef2) =>
          match startEntries env integration fd rest db2 with
          | .error err => .error err
          | .ok (db3, ef3) => .ok (db3, ef1 ++ ef2 ++ ef3)

/-- start: require integration facebookData, then process the entries of a
page object; any other object is ignored. -/
def start (env : Env) (integration : Integration) (data : WebhookData) (db : DB) :
    Except String (DB × List String) :=
  match integration.facebookData with
  | none => .error "start: Integration does not have facebookData"
  | some fd =>
    if data.object = "page" then startEntries env integration fd data.entry db
    else .ok (db, [])

end SaveWebhookResponse

/-- Number of stored messages carrying this messenger message id. -/
def countWithMessageId (db : DB) (mid : String) : Nat :=
  (db.messages.filter (fun m => m.facebookData.messageId = some mid)).length

/-- Number of stored messages carrying this comment id. -/
def countWithCommentId (db : DB) (cid : String) : Nat :=
  (db.messages.filter (fun m => m.facebookData.commentId = some cid)).length

/-- Number of messages of one conversation carrying this comment id. -/
def countCommentInConv (db : DB) (convId : Nat) (cid : String) : Nat :=
  (db.messages.filter
    (fun m => m.conversationId = convId && m.facebookData.commentId = some cid)).length

/-- Number of messages of one conversation flagged isPost. -/
def countIsPost (db : DB) (convId : Nat) : Nat :=
  (db.messages.filter
    (fun m => m.conversationId = convId && m.facebookData.isPost = some true)).length

/-- The reactor list stored under one reaction type. -/
def getReactionList (rs : List (String × List IFbUser)) (k : String) : List IFbUser :=
  match rs.find? (fun p => p.1 = k) with
  | some p => p.2
  | none => []

/-! ### Shared lemmas about the embedded operations -/

theorem mem_of_findOneLatest {db : DB} {sel : Conversation → Bool} {c : Conversation}
    (h : Conversations.findOneLatest db sel = some c) :
    c ∈ db.conversations ∧ sel c = true := by
  unfold Conversations.findOneLatest at h
  have hx : c ∈ (db.conversations.filter sel).getLast? := h
  obtain ⟨hne, rfl⟩ := List.mem_getLast?_eq_getLast hx
  have hmem := List.getLast_mem hne
  exact ⟨(List.mem_filter.mp hmem).1, (List.mem_filter.mp hmem).2⟩

theorem getOrCreateCustomer_db (env : Env) (uid iid : String) (db : DB) :
    (getOrCreateCustomer env uid iid db).2.1.messages = db.messages ∧
    (getOrCreateCustomer env uid iid db).2.1.conversations = db.conversations ∧
    (getOrCreateCustomer env uid iid db).2.1.nextConvId = db.nextConvId ∧
    (getOrCreateCustomer env uid iid db).2.1.nextMsgId = db.nextMsgId := by
  unfold getOrCreateCustomer
  cases h : db.customers.find? (fun c => c.facebookId = uid) <;>
    simp [Customers.createCustomer, ActivityLogs.createCustomerRegistrationLog]

theorem createMessage_run (env : Env) (integ : Integration) (conv : Conversation)
    (uid content : String) (atts : List AttachmentOut) (fb : IMsgFacebook) (db : DB) :
    (SaveWebhookResponse.createMessage env integ conv uid content atts fb db).1 = db.nextMsgId ∧
    (SaveWebhookResponse.createMessage env integ conv uid content atts fb db).2.1.messages =
      db.messages ++
        [{ _id := db.nextMsgId, conversationId := conv._id
           customerId := (getOrCreateCustomer env uid integ._id db).1._id
           content := content, attachments := atts, facebookData := fb }] ∧
    (SaveWebhookResponse.createMessage env integ conv uid content atts fb db).2.1.nextMsgId
      = db.nextMsgId + 1 ∧
    (SaveWebhookResponse.createMessage env integ conv uid content atts fb db).2.1.nextConvId
      = db.nextConvId := by
  obtain ⟨hm, hc, hcid, hmid⟩ := getOrCreateCustomer_db env uid integ._id db
  rcases hg : getOrCreateCustomer env uid integ._id db with ⟨cust, db1, ef1⟩
  rw [hg] at hm hcid hmid
  simp only at hm hcid hmid
  simp [SaveWebhookResponse.createMessage, hg, ConversationMessages.createMessage, hm, hcid, hmid]

theorem createMessage_fst (env : Env) (integ : Integration) (conv : Conversation)
    (uid content : String) (atts : List AttachmentOut) (fb : IMsgFacebook) (db : DB) :
    (SaveWebhookResponse.createMessage env integ conv uid content atts fb db).1 = db.nextMsgId :=
  (createMessage_run env integ conv uid content atts fb db).1

theorem createMessage_messages (env : Env) (integ : Integration) (conv : Conversation)
    (uid content : String) (atts : List AttachmentOut) (fb : IMsgFacebook) (db : DB) :
    (SaveWebhookResponse.createMessage env integ conv uid content atts fb db).2.1.messages =
      db.messages ++
        [{ _id := db.nextMsgId, conversationId := conv._id
           customerId := (getOrCreateCustomer env uid integ._id db).1._id
           content := content, attachments := atts, facebookData := fb }] :=
  (createMessage_run env integ conv uid content atts fb db).2.1

theorem createMessage_nextMsgId (env : Env) (integ : Integration) (conv : Conversation)
    (uid content : String) (atts : List AttachmentOut) (fb : IMsgFacebook) (db : DB) :
    (SaveWebhookResponse.createMessage env integ conv uid content atts fb db).2.1.nextMsgId =
      db.nextMsgId + 1 :=
  (createMessage_run env integ conv uid content atts fb db).2.2.1

theorem restoreParentPost_noPost (env : Env) (integ : Integration) (conv : Conversation)
    (uid : String) (fb : IMsgFacebook) (db : DB) (h : fb.postId = none) :
    SaveWebhookResponse.restoreParentPost env integ conv uid fb db = (false, db, []) := by
  simp [SaveWebhookResponse.restoreParentPost, h, truthyStr]

theorem createMessageFromComments_mem (env : Env) (integ : Integration)
    (conv : Conversation) (uid : String) :
    ∀ (comments : List CommentResp) (db : DB) (m : FbMessage), m ∈ db.messages →
      m ∈ (SaveWebhookResponse.createMessageFromComments env integ conv uid comments db).1.messages := by
  intro comments
  induction comments with
  | nil => intro db m hm; simpa [SaveWebhookResponse.createMessageFromComments] using hm
  | cons c rest ih =>
    intro db m hm
    by_cases hid : c.id = ""
    · simpa [SaveWebhookResponse.createMessageFromComments, hid] using hm
    · cases hf : db.messages.find?
          (fun m => m.facebookData.commentId = some c.id && m.conversationId = conv._id) with
      | some m0 =>
        simp only [SaveWebhookResponse.createMessageFromComments, hid, hf]
        simp only [ite_false, if_neg hid]
        exact ih db m hm
      | none =>
        simp only [SaveWebhookResponse.createMessageFromComments, hid, hf]
        simp only [ite_false, if_neg hid]
        apply ih
        rw [createMessage_messages]
        exact List.mem_append_left _ hm

theorem generatePostParams_isPost (pp : IPostParams) :
    (generatePostParams pp).isPost = some true := by
  unfold generatePostParams
  repeat' split
  all_goals rfl

theorem generatePostParams_postId (pp : IPostParams) :
    (generatePostParams pp).postId = pp.post_id := by
  unfold generatePostParams
  repeat' split
  all_goals rfl

theorem restoreParentPost_mem (env : Env) (integ : Integration) (conv : Conversation)
    (uid : String) (fb : IMsgFacebook) (db : DB) (m : FbMessage) (hm : m ∈ db.messages) :
    m ∈ (SaveWebhookResponse.restoreParentPost env integ conv uid fb db).2.1.messages := by
  simp only [SaveWebhookResponse.restoreParentPost]
  split
  · exact hm
  · split
    · exact hm
    · split
      · exact hm
      · split
        · rw [createMessage_messages]
          exact List.mem_append_left _ hm
        · apply createMessageFromComments_mem
          rw [createMessage_messages]
          exact List.mem_append_left _ hm

theorem reopen_messages (db : DB) (cid : Nat) :
    (Conversations.reopen db cid).2.messages = db.messages := rfl

theorem reopen_nextMsgId (db : DB) (cid : Nat) :
    (Conversations.reopen db cid).2.nextMsgId = db.nextMsgId := rfl

theorem reopen_found {db : DB} {c : Conversation} (h : c ∈ db.conversations) :
    ∃ c', (Conversations.reopen db c._id).1 = some c' ∧ c'._id = c._id := by
  have hmem : (if c._id = c._id then { c with status := CONVERSATION_STATUSES.OPEN } else c) ∈
      db.conversations.map
        (fun x => if x._id = c._id then { x with status := CONVERSATION_STATUSES.OPEN } else x) :=
    List.mem_map_of_mem _ h
  have hs : ((db.conversations.map
      (fun x => if x._id = c._id then { x with status := CONVERSATION_STATUSES.OPEN } else x)).find?
        (fun x => x._id = c._id)).isSome := by
    refine List.find?_isSome.mpr ⟨_, hmem, ?_⟩
    simp
  obtain ⟨c', hc'⟩ := Option.isSome_iff_exists.mp hs
  refine ⟨c', hc', ?_⟩
  have := List.find?_some hc'
  simpa using this

theorem finishConversation_fst (env : Env) (integ : Integration) (conv : Conversation)
    (senderId content : String) (atts : List AttachmentOut) (fb : IMsgFacebook) (db : DB) :
    (SaveWebhookResponse.finishConversation env integ conv senderId content atts fb db).1
      = (SaveWebhookResponse.restoreParentPost env integ conv senderId fb db).2.1.nextMsgId := by
  simp [SaveWebhookResponse.finishConversation, createMessage_fst]

theorem finishConversation_messages (env : Env) (integ : Integration) (conv : Conversation)
    (senderId content : String) (atts : List AttachmentOut) (fb : IMsgFacebook) (db : DB) :
    (SaveWebhookResponse.finishConversation env integ conv senderId content atts fb db).2.1.messages
      = (SaveWebhookResponse.restoreParentPost env integ conv senderId fb db).2.1.messages ++
        [{ _id := (SaveWebhookResponse.restoreParentPost env integ conv senderId fb db).2.1.nextMsgId
           conversationId := conv._id
           customerId := (getOrCreateCustomer env senderId integ._id
             (SaveWebhookResponse.restoreParentPost env integ conv senderId fb db).2.1).1._id
           content := content, attachments := atts, facebookData := fb }] := by
  simp [SaveWebhookResponse.finishConversation, createMessage_messages]

/-- C2: when the selector of getOrCreateConversation matches an existing
conversation, a closed match with more than one message yields a newly
created conversation (its id is fresh, hence different), while any other
match is reopened: the ingested message lands in the conversation with the
same id, and all previously stored messages are preserved. In particular a
closed conversation with exactly one message is reopened and one with two
or more messages yields a different conversation id. res.1 is the id of the
message created for the event and res.2.1 the resulting store. -/
theorem C2_reopen_threshold (env : Env) (integ : Integration) (pageId : String)
    (params : IGetOrCreateConversationParams) (db : DB) (sel : Conversation → Bool)
    (c : Conversation)
    (hsel : params.findSelector = some sel)
    (hfind : Conversations.findOneLatest db sel = some c)
    (hfresh : ∀ x ∈ db.conversations, x._id < db.nextConvId) :
    ∃ res : Nat × DB × List String,
      SaveWebhookResponse.getOrCreateConversation env integ (some pageId) params db = .ok res ∧
      (∀ pm ∈ db.messages, pm ∈ res.2.1.messages) ∧
      ∃ m, m ∈ res.2.1.messages ∧ m._id = res.1 ∧ m.facebookData = params.msgFacebookData ∧
        ((1 < c.messageCount ∧ c.status = CONVERSATION_STATUSES.CLOSED) →
          m.conversationId ≠ c._id) ∧
        (¬ (1 < c.messageCount ∧ c.status = CONVERSATION_STATUSES.CLOSED) →
          m.conversationId = c._id) := by
  have hcmem := (mem_of_findOneLatest hfind).1
  obtain ⟨hcm, hcc, hcid, hmid⟩ := getOrCreateCustomer_db env params.senderId integ._id db
  by_cases hcond : 1 < c.messageCount ∧ c.status = CONVERSATION_STATUSES.CLOSED
  · cases hres : SaveWebhookResponse.getOrCreateConversation env integ (some pageId) params db with
    | error e =>
      exfalso
      simp only [SaveWebhookResponse.getOrCreateConversation, hsel, hfind] at hres
      rw [if_pos ⟨by omega, hcond⟩] at hres
      simp [SaveWebhookResponse.createConversationBranch] at hres
    | ok t =>
      have hres0 := hres
      simp only [SaveWebhookResponse.getOrCreateConversation, hsel, hfind] at hres
      rw [if_pos ⟨by omega, hcond⟩] at hres
      simp only [SaveWebhookResponse.createConversationBranch] at hres
      rw [Except.ok.injEq] at hres
      subst hres
      refine ⟨_, rfl, ?_, ?_⟩
      · intro pm hpm
        rw [finishConversation_messages]
        apply List.mem_append_left
        apply restoreParentPost_mem
        simpa [ActivityLogs.createConversationLog, Conversations.createConversation, hcm] using hpm
      · rw [finishConversation_messages]
        refine ⟨_, List.mem_append_right _ (List.mem_singleton_self _), ?_, rfl, ?_, ?_⟩
        · rw [finishConversation_fst]
        · intro _
          have hlt := hfresh c hcmem
          simp only [Conversations.createConversation, ActivityLogs.createConversationLog, hcid]
          omega
        · intro hno
          exact absurd hcond hno
  · cases hres : SaveWebhookResponse.getOrCreateConversation env integ (some pageId) params db with
    | error e =>
      exfalso
      obtain ⟨c', hc', hc'id⟩ := reopen_found hcmem
      simp only [SaveWebhookResponse.getOrCreateConversation, hsel, hfind] at hres
      rw [if_neg (fun hh => hcond hh.2)] at hres
      rw [hc'] at hres
      simp at hres
    | ok t =>
      have hres0 := hres
      obtain ⟨c', hc', hc'id⟩ := reopen_found hcmem
      simp only [SaveWebhookResponse.getOrCreateConversation, hsel, hfind] at hres
      rw [if_neg (fun hh => hcond hh.2)] at hres
      rw [hc'] at hres
      simp only at hres
      rw [Except.ok.injEq] at hres
      subst hres
      refine ⟨_, rfl, ?_, ?_⟩
      · intro pm hpm
        rw [finishConversation_messages]
        apply List.mem_append_left
        apply restoreParentPost_mem
        simpa [reopen_messages] using hpm
      · rw [finishConversation_messages]
        refine ⟨_, List.mem_append_right _ (List.mem_singleton_self _), ?_, rfl, ?_, ?_⟩
        · rw [finishConversation_fst]
        · intro hyes
          exact absurd hyes hcond
        · intro _
          simpa using hc'id

/-- Shared concrete environment for witnesses and counterexamples. -/
def envW : Env :=
  { pageTokenResp := some "tok"
    profile := fun _ => { name := some "Jane Roe" }
    profilePic := fun _ => none
    postObjectId := fun s => s
    postInfo := fun s => { id := s, fromId := "pf", fromName := "PF" }
    commentInfo := fun s => { id := s, fromId := "cf", fromName := "CF" }
    commentsOf := fun _ => [] }

/-- Shared concrete integration owning the single page pg. -/
def integW : Integration := { _id := "i", facebookData := some { pageIds := ["pg"] } }

/-- A closed messenger conversation with two messages, for the C2 witness. -/
def convW2 : Conversation :=
  { _id := 0, integrationId := "i", customerId := 0, status := CONVERSATION_STATUSES.CLOSED
    content := "", messageCount := 2
    facebookData := { kind := FACEBOOK_DATA_KINDS.MESSENGER, senderId := "a", recipientId := some "b" } }

/-- Store holding only convW2. -/
def dbW2 : DB := { DB.empty with conversations := [convW2], nextConvId := 1 }

/-- Selector used by the C2 witness. -/
def selW2 : Conversation → Bool := messengerFindSelector "a" "b"

/-- Parameters used by the C2 witness. -/
def paramsW2 : IGetOrCreateConversationParams :=
  { findSelector := some selW2, status := CONVERSATION_STATUSES.NEW, senderId := "a"
    facebookData := { kind := FACEBOOK_DATA_KINDS.MESSENGER, senderId := "a", recipientId := some "b" }
    content := "hi", msgFacebookData := { messageId := some "m1" } }

/-- Witness for C2 at a concrete closed conversation with two messages. -/
theorem C2_witness :
    ∃ res : Nat × DB × List String,
      SaveWebhookResponse.getOrCreateConversation envW integW (some "pg") paramsW2 dbW2 = .ok res ∧
      (∀ pm ∈ dbW2.messages, pm ∈ res.2.1.messages) ∧
      ∃ m, m ∈ res.2.1.messages ∧ m._id = res.1 ∧ m.facebookData = paramsW2.msgFacebookData ∧
        ((1 < convW2.messageCount ∧ convW2.status = CONVERSATION_STATUSES.CLOSED) →
          m.conversationId ≠ convW2._id) ∧
        (¬ (1 < convW2.messageCount ∧ convW2.status = CONVERSATION_STATUSES.CLOSED) →
          m.conversationId = convW2._id) :=
  C2_reopen_threshold envW integW "pg" paramsW2 dbW2 selW2 convW2 rfl rfl (by decide)

/-- C10: for any webhook payload whose object field is not page, start
(given an integration that has facebookData) returns with the store
unchanged and an empty effect list: no persistence writes, no external API
calls, no notifications. -/
theorem C10_non_page_ignored (env : Env) (integ : Integration) (fd : FacebookIntegrationData)
    (data : WebhookData) (db : DB)
    (hfd : integ.facebookData = some fd) (hobj : data.object ≠ "page") :
    SaveWebhookResponse.start env integ data db = .ok (db, []) := by
  simp [SaveWebhookResponse.start, hfd, hobj]

/-- Witness for C10 at a concrete non-page payload. -/
theorem C10_witness :
    SaveWebhookResponse.start envW integW { object := "user", entry := [] } DB.empty
      = .ok (DB.empty, []) :=
  C10_non_page_ignored envW integW { pageIds := ["pg"] } _ DB.empty rfl (by decide)

/-- C1 (amended): an entry whose id is not among the owned page ids makes
start return immediately: the store is unchanged, nothing is dispatched and
no effect happens, even when later entries of the same delivery belong to
owned pages. -/
theorem C1_unowned_entry_aborts_delivery (env : Env) (integ : Integration)
    (fd : FacebookIntegrationData) (db : DB) (e : Entry) (rest : List Entry)
    (hfd : integ.facebookData = some fd)
    (hown : fd.pageIds.contains e.id = false) :
    SaveWebhookResponse.start env integ { object := "page", entry := e :: rest } db
      = .ok (db, []) := by
  have hnm : e.id ∉ fd.pageIds := by simpa using hown
  simp [SaveWebhookResponse.start, hfd, SaveWebhookResponse.startEntries, hnm]

/-- A messenger event for the C1 counterexample. -/
def evW1 : MessagingEvent :=
  { senderId := "100", senderName := some "Cust", recipientId := "pg"
    message := some { mid := "m1", text := some "hi" } }

/-- Number of messages in the store a run of start produced (0 on error). -/
def runMessagesLen (r : Except String (DB × List String)) : Nat :=
  match r with
  | .ok (db, _) => db.messages.length
  | .error _ => 0

/-- Counterexample for C1 as stated: with entries [unowned p1, owned pg],
the delivery leaves the store empty - the owned entry is never dispatched -
while the same delivery without the unowned entry persists one message. -/
theorem C1_counterexample_owned_entry_not_dispatched :
    (SaveWebhookResponse.start envW integW
        { object := "page", entry := [{ id := "p1" }, { id := "pg", messaging := some [evW1] }] }
        DB.empty = .ok (DB.empty, [])) ∧
    runMessagesLen (SaveWebhookResponse.start envW integW
        { object := "page", entry := [{ id := "pg", messaging := some [evW1] }] } DB.empty) = 1 := by
  constructor
  · rfl
  · decide

/-- Witness for the amended C1 at a concrete delivery whose first entry is
not owned. -/
theorem C1_witness :
    SaveWebhookResponse.start envW integW
        { object := "page", entry := [{ id := "p1" }, { id := "pg", messaging := some [evW1] }] }
        DB.empty = .ok (DB.empty, []) :=
  C1_unowned_entry_aborts_delivery envW integW { pageIds := ["pg"] } DB.empty _ _ rfl (by decide)

/-- C8: the messenger find selector is insensitive to swapping sender and
recipient: it matches the same conversations pointwise, the lookup over any
store returns the same conversation, and the conversation data the
messenger path stores for one order is matched by the swapped selector. -/
theorem C8_swapped_selector_symmetric (senderId recipientId : String) :
    (∀ c : Conversation,
      messengerFindSelector senderId recipientId c = messengerFindSelector recipientId senderId c) ∧
    (∀ db : DB, Conversations.findOneLatest db (messengerFindSelector senderId recipientId)
        = Conversations.findOneLatest db (messengerFindSelector recipientId senderId)) ∧
    (∀ c : Conversation, c.facebookData.kind = FACEBOOK_DATA_KINDS.MESSENGER →
      c.facebookData.senderId = senderId → c.facebookData.recipientId = some recipientId →
      messengerFindSelector recipientId senderId c = true) := by
  have hpt : ∀ c : Conversation,
      messengerFindSelector senderId recipientId c = messengerFindSelector recipientId senderId c := by
    intro c
    simp only [messengerFindSelector]
    rw [Bool.or_comm]
  refine ⟨hpt, ?_, ?_⟩
  · intro db
    unfold Conversations.findOneLatest
    rw [List.filter_congr (fun x _ => hpt x)]
  · intro c hk hs hr
    simp [messengerFindSelector, hk, hs, hr]

/-- A concrete messenger conversation for the C8 witness. -/
def convW8 : Conversation :=
  { _id := 0, integrationId := "i", customerId := 0, status := CONVERSATION_STATUSES.NEW
    content := "", messageCount := 1
    facebookData := { kind := FACEBOOK_DATA_KINDS.MESSENGER, senderId := "A", recipientId := some "B" } }

/-- Witness for C8 at concrete ids A and B. -/
theorem C8_witness :
    messengerFindSelector "A" "B" convW8 = messengerFindSelector "B" "A" convW8 ∧
    Conversations.findOneLatest { DB.empty with conversations := [convW8] }
        (messengerFindSelector "A" "B")
      = Conversations.findOneLatest { DB.empty with conversations := [convW8] }
        (messengerFindSelector "B" "A") ∧
    messengerFindSelector "B" "A" convW8 = true :=
  ⟨(C8_swapped_selector_symmetric "A" "B").1 convW8,
   (C8_swapped_selector_symmetric "A" "B").2.1 _,
   (C8_swapped_selector_symmetric "A" "B").2.2 convW8 rfl rfl rfl⟩

theorem pullReaction_clears (rs : List (String × List IFbUser)) (k uid : String) :
    ∀ u ∈ getReactionList (SaveWebhookResponse.pullReaction rs k uid) k, u.id ≠ uid := by
  induction rs with
  | nil => intro u hu; simp [SaveWebhookResponse.pullReaction, getReactionList] at hu
  | cons p rest ih =>
    intro u hu
    by_cases hk : p.1 = k
    · have hstep : getReactionList (SaveWebhookResponse.pullReaction (p :: rest) k uid) k
          = p.2.filter (fun v => v.id ≠ uid) := by
        simp [SaveWebhookResponse.pullReaction, getReactionList, List.find?_cons, hk]
      rw [hstep] at hu
      simpa using (List.mem_filter.mp hu).2
    · have hstep : getReactionList (SaveWebhookResponse.pullReaction (p :: rest) k uid) k
          = getReactionList (SaveWebhookResponse.pullReaction rest k uid) k := by
        simp [SaveWebhookResponse.pullReaction, getReactionList, List.find?_cons, hk]
      rw [hstep] at hu
      exact ih u hu

/-- C9: removing a reaction pulls by actor id, so after one remove no entry
with that actor id remains under the reaction type on any message matching
the selector, even if repeated adds had stacked the actor several times. -/
theorem C9_remove_clears_actor (ty : String) (sel : MsgSelector) (rt : String)
    (actor : IFbUser) (db : DB) (hty : ty ≠ "add") :
    ∀ m ∈ (SaveWebhookResponse.updateReactions ty sel rt actor db).messages,
      matchesSel sel m = true →
      ∀ u ∈ getReactionList m.facebookData.reactions rt, u.id ≠ actor.id := by
  intro m hm hmatch u hu
  unfold SaveWebhookResponse.updateReactions at hm
  rw [if_neg hty] at hm
  simp only [List.mem_map] at hm
  obtain ⟨m0, hm0, rfl⟩ := hm
  by_cases hms : matchesSel sel m0 = true
  · rw [if_pos hms] at hu
    exact pullReaction_clears m0.facebookData.reactions rt actor.id u hu
  · rw [if_neg hms] at hmatch
    exact absurd hmatch hms

/-- A message carrying the reactor u twice (and x once) under love, for
the C9 witness. -/
def msgW9 : FbMessage :=
  { _id := 0, conversationId := 0, customerId := 0, content := "post"
    facebookData := { postId := some "p"
                      reactions := [("love",
                        [{ id := "u", name := "U" }, { id := "x", name := "X" },
                         { id := "u", name := "U" }])] } }

/-- Store holding only msgW9. -/
def dbW9 : DB := { DB.empty with messages := [msgW9], nextMsgId := 1 }

/-- The message msgW9 after the remove: both stacked u entries are gone and
only x survives under love. -/
def msgW9out : FbMessage :=
  { msgW9 with facebookData :=
      { msgW9.facebookData with reactions := [("love", [{ id := "x", name := "X" }])] } }

/-- Witness for C9: the surviving reactor of the concrete remove is not u -
obtained by applying the theorem to the concrete store, the surviving
message and the surviving entry, all hypotheses evaluated. -/
theorem C9_witness : ({ id := "x", name := "X" } : IFbUser).id ≠ "u" :=
  C9_remove_clears_actor "remove" (MsgSelector.byPostId "p") "love"
    { id := "u", name := "U" } dbW9 (by decide) msgW9out (by decide) (by decide)
    { id := "x", name := "X" } (by decide)

/-- Messages for the C5 counterexample: one matching the post id, one
matching the comment id. -/
def msgP5 : FbMessage :=
  { _id := 0, conversationId := 0, customerId := 0, content := "post"
    facebookData := { postId := some "p" } }

/-- The comment message of the C5 counterexample. -/
def msgC5 : FbMessage :=
  { _id := 1, conversationId := 0, customerId := 0, content := "comment"
    facebookData := { commentId := some "c" } }

/-- Store for the C5 counterexample. -/
def dbW5 : DB := { DB.empty with messages := [msgP5, msgC5], nextMsgId := 2 }

/-- A like event carrying both a post id and a comment id. -/
def valW5 : FeedValue :=
  { item := some "like", verb := some "add", post_id := some "p", comment_id := some "c"
    fromId := "u", fromName := "U" }

/-- Counterexample for C5 as stated: with both post_id p and comment_id c
present, the message matching the post id keeps likeCount 0 and the one
matching the comment id is incremented - the comment-id selector, not the
post-id selector, wins. -/
theorem C5_counterexample_both_ids :
    ((SaveWebhookResponse.handleReactions valW5 dbW5).1.messages.map
      (fun m => m.facebookData.likeCount)) = [0, 1] := by decide

/-- C5 (amended): when both post_id and comment_id are present, the
comment-id assignment comes second and overwrites, so handleReactions
behaves exactly as if post_id were absent, and the chosen update (like
counter or reaction list) is applied to the messages matching the
comment-id selector. -/
theorem C5_comment_selector_wins (value : FeedValue) (db : DB)
    (_hp : truthyStr value.post_id = true) (hc : truthyStr value.comment_id = true) :
    SaveWebhookResponse.handleReactions value db
      = SaveWebhookResponse.handleReactions { value with post_id := none } db ∧
    (value.item = some "like" →
      (SaveWebhookResponse.handleReactions value db).1
        = SaveWebhookResponse.updateLikeCount (value.verb.getD "")
            (MsgSelector.byCommentId (value.comment_id.getD "")) db) ∧
    (value.item = some "reaction" →
      (SaveWebhookResponse.handleReactions value db).1
        = SaveWebhookResponse.updateReactions (value.verb.getD "")
            (MsgSelector.byCommentId (value.comment_id.getD ""))
            (jsOrStr value.reaction_type "like") { id := value.fromId, name := value.fromName } db) := by
  have hnone : truthyStr none = false := rfl
  refine ⟨?_, ?_, ?_⟩
  · simp [SaveWebhookResponse.handleReactions, hc, hnone]
  · intro hlike
    simp [SaveWebhookResponse.handleReactions, hc, hlike]
  · intro hreact
    simp [SaveWebhookResponse.handleReactions, hc, hreact]

/-- Witness for the amended C5 at the concrete both-ids event. -/
theorem C5_witness :
    SaveWebhookResponse.handleReactions valW5 dbW5
      = SaveWebhookResponse.handleReactions { valW5 with post_id := none } dbW5 ∧
    (valW5.item = some "like" →
      (SaveWebhookResponse.handleReactions valW5 dbW5).1
        = SaveWebhookResponse.updateLikeCount (valW5.verb.getD "")
            (MsgSelector.byCommentId (valW5.comment_id.getD "")) dbW5) ∧
    (valW5.item = some "reaction" →
      (SaveWebhookResponse.handleReactions valW5 dbW5).1
        = SaveWebhookResponse.updateReactions (valW5.verb.getD "")
            (MsgSelector.byCommentId (valW5.comment_id.getD ""))
            (jsOrStr valW5.reaction_type "like") { id := valW5.fromId, name := valW5.fromName } dbW5) :=
  C5_comment_selector_wins valW5 dbW5 (by decide) (by decide)

/-- Counterexample for C6 as stated: a comment with an explicit parent
object P whose post_id po differs from its parent_id pa ends with parentId
pa, not the explicit parent object id P. -/
theorem C6_counterexample_explicit_parent :
    (generateCommentParams { parent := some "P", post_id := some "po", parent_id := some "pa" }).parentId
      = some "pa" ∧ some "pa" ≠ some "P" := by
  exact ⟨rfl, by decide⟩

/-- C6 (amended): the parent_id assignment is unconditional and comes after
the explicit parent object assignment, so parentId equals parent_id
whenever post_id differs from parent_id - even when an explicit parent
object is present - and equals the explicit parent object id only when
post_id equals parent_id. -/
theorem C6_parent_id_overwrites (cp : ICommentParams) :
    (generateCommentParams cp).parentId =
      if cp.post_id ≠ cp.parent_id then cp.parent_id else cp.parent := by
  unfold generateCommentParams
  by_cases h : cp.post_id = cp.parent_id <;>
  by_cases h2 : truthyStr cp.photo = true <;>
  by_cases h3 : truthyStr cp.video = true <;>
  by_cases h4 : truthyStr cp.created_time = true <;>
  cases hpar : cp.parent <;>
    simp [h, h2, h3, h4, hpar]

/-- Environment whose profile lookup returns only a combined name, as feed
responses do. -/
def envW7 : Env :=
  { pageTokenResp := some "tok"
    profile := fun _ => { name := some "John Doe" }
    profilePic := fun _ => none
    postObjectId := fun s => s
    postInfo := fun s => { id := s, fromId := "pf", fromName := "PF" }
    commentInfo := fun s => { id := s, fromId := "cf", fromName := "CF" }
    commentsOf := fun _ => [] }

/-- Counterexample for C7 as stated: with only a combined name John Doe
available, the created customer stores the whole string as firstName and an
empty lastName - the name is not split into components. -/
theorem C7_counterexample_combined_name :
    (getOrCreateCustomer envW7 "u77" "i" DB.empty).1.firstName = some "John Doe" ∧
    (getOrCreateCustomer envW7 "u77" "i" DB.empty).1.lastName = "" ∧
    (getOrCreateCustomer envW7 "u77" "i" DB.empty).1.firstName ≠ some "John" ∧
    (getOrCreateCustomer envW7 "u77" "i" DB.empty).1.lastName ≠ "Doe" := by
  refine ⟨rfl, rfl, by decide, by decide⟩

/-- C7 (amended): on first contact the created customer prefers first_name
over the combined name for firstName, and lastName falls back to the empty
string; when only a combined name is provided it is stored whole as
firstName with an empty lastName - no splitting occurs. -/
theorem C7_name_not_split (env : Env) (uid iid : String) (db : DB)
    (hmiss : db.customers.find? (fun c => c.facebookId = uid) = none) :
    (getOrCreateCustomer env uid iid db).1.firstName
      = (if truthyStr (env.profile uid).first_name then (env.profile uid).first_name
         else (env.profile uid).name) ∧
    (getOrCreateCustomer env uid iid db).1.lastName = (env.profile uid).last_name.getD "" := by
  simp [getOrCreateCustomer, hmiss, Customers.createCustomer]

/-- Witness for the amended C7 at the combined-name environment. -/
theorem C7_witness :
    (getOrCreateCustomer envW7 "u77" "i" DB.empty).1.firstName
      = (if truthyStr (envW7.profile "u77").first_name then (envW7.profile "u77").first_name
         else (envW7.profile "u77").name) ∧
    (getOrCreateCustomer envW7 "u77" "i" DB.empty).1.lastName
      = (envW7.profile "u77").last_name.getD "" :=
  C7_name_not_split envW7 "u77" "i" DB.empty rfl

theorem count_pos_exists {db : DB} {mid : String}
    (h : 0 < countWithMessageId db mid) :
    ∃ m ∈ db.messages, m.facebookData.messageId = some mid := by
  unfold countWithMessageId at h
  rw [List.length_pos] at h
  obtain ⟨m, hm⟩ := List.exists_mem_of_ne_nil _ h
  exact ⟨m, (List.mem_filter.mp hm).1, by simpa using (List.mem_filter.mp hm).2⟩

theorem count_zero_find_none {db : DB} {mid : String}
    (h : countWithMessageId db mid = 0) :
    db.messages.find? (fun m => m.facebookData.messageId = some mid) = none := by
  rw [List.find?_eq_none]
  intro x hx hpx
  have hempty : db.messages.filter (fun m => m.facebookData.messageId = some mid) = [] :=
    List.length_eq_zero.mp h
  have hmem : x ∈ db.messages.filter (fun m => m.facebookData.messageId = some mid) :=
    List.mem_filter.mpr ⟨hx, hpx⟩
  rw [hempty] at hmem
  simp at hmem

theorem finishConversation_count_noPost (env : Env) (integ : Integration) (conv : Conversation)
    (senderId content : String) (atts : List AttachmentOut) (fb : IMsgFacebook)
    (dbx db : DB) (mid : String)
    (hpost : fb.postId = none) (hmid : fb.messageId = some mid)
    (hmsgs : dbx.messages = db.messages) :
    countWithMessageId
        (SaveWebhookResponse.finishConversation env integ conv senderId content atts fb dbx).2.1 mid
      = countWithMessageId db mid + 1 := by
  unfold countWithMessageId
  simp only [finishConversation_messages,
    restoreParentPost_noPost env integ conv senderId fb dbx hpost]
  simp [hmsgs, List.filter_append, hmid]

theorem getOrCreateConversation_noPost_count (env : Env) (integ : Integration) (pageId : String)
    (params : IGetOrCreateConversationParams) (db : DB) (mid : String)
    (hpost : params.msgFacebookData.postId = none)
    (hmid : params.msgFacebookData.messageId = some mid) :
    ∃ res : Nat × DB × List String,
      SaveWebhookResponse.getOrCreateConversation env integ (some pageId) params db = .ok res ∧
      countWithMessageId res.2.1 mid = countWithMessageId db mid + 1 := by
  obtain ⟨hcm, hcc, hcid, hmidp⟩ := getOrCreateCustomer_db env params.senderId integ._id db
  rcases hselopt : params.findSelector with _ | sel
  · cases hres : SaveWebhookResponse.getOrCreateConversation env integ (some pageId) params db with
    | error e =>
      exfalso
      simp [SaveWebhookResponse.getOrCreateConversation, hselopt,
        SaveWebhookResponse.createConversationBranch] at hres
    | ok t =>
      simp only [SaveWebhookResponse.getOrCreateConversation, hselopt,
        SaveWebhookResponse.createConversationBranch] at hres
      rw [Except.ok.injEq] at hres
      subst hres
      refine ⟨_, rfl, ?_⟩
      exact finishConversation_count_noPost env integ _ _ _ _ _ _ db mid hpost hmid
        (by simp [ActivityLogs.createConversationLog, Conversations.createConversation, hcm])
  · cases hfind : Conversations.findOneLatest db sel with
    | none =>
      cases hres : SaveWebhookResponse.getOrCreateConversation env integ (some pageId) params db with
      | error e =>
        exfalso
        simp [SaveWebhookResponse.getOrCreateConversation, hselopt, hfind,
          SaveWebhookResponse.createConversationBranch] at hres
      | ok t =>
        simp only [SaveWebhookResponse.getOrCreateConversation, hselopt, hfind,
          SaveWebhookResponse.createConversationBranch] at hres
        rw [Except.ok.injEq] at hres
        subst hres
        refine ⟨_, rfl, ?_⟩
        exact finishConversation_count_noPost env integ _ _ _ _ _ _ db mid hpost hmid
          (by simp [ActivityLogs.createConversationLog, Conversations.createConversation, hcm])
    | some c =>
      have hcmem := (mem_of_findOneLatest hfind).1
      by_cases hcond : c.messageCount ≠ 0 ∧ (1 < c.messageCount ∧ c.status = CONVERSATION_STATUSES.CLOSED)
      · cases hres : SaveWebhookResponse.getOrCreateConversation env integ (some pageId) params db with
        | error e =>
          exfalso
          simp only [SaveWebhookResponse.getOrCreateConversation, hselopt, hfind] at hres
          rw [if_pos hcond] at hres
          simp [SaveWebhookResponse.createConversationBranch] at hres
        | ok t =>
          simp only [SaveWebhookResponse.getOrCreateConversation, hselopt, hfind] at hres
          rw [if_pos hcond] at hres
          simp only [SaveWebhookResponse.createConversationBranch] at hres
          rw [Except.ok.injEq] at hres
          subst hres
          refine ⟨_, rfl, ?_⟩
          exact finishConversation_count_noPost env integ _ _ _ _ _ _ db mid hpost hmid
            (by simp [ActivityLogs.createConversationLog, Conversations.createConversation, hcm])
      · cases hres : SaveWebhookResponse.getOrCreateConversation env integ (some pageId) params db with
        | error e =>
          exfalso
          obtain ⟨c', hc', hc'id⟩ := reopen_found hcmem
          simp only [SaveWebhookResponse.getOrCreateConversation, hselopt, hfind] at hres
          rw [if_neg hcond] at hres
          rw [hc'] at hres
          simp at hres
        | ok t =>
          obtain ⟨c', hc', hc'id⟩ := reopen_found hcmem
          simp only [SaveWebhookResponse.getOrCreateConversation, hselopt, hfind] at hres
          rw [if_neg hcond] at hres
          rw [hc'] at hres
          simp only at hres
          rw [Except.ok.injEq] at hres
          subst hres
          refine ⟨_, rfl, ?_⟩
          exact finishConversation_count_noPost env integ _ _ _ _ _ _ db mid hpost hmid
            (reopen_messages db c._id)

theorem byMessenger_skip (env : Env) (integ : Integration) (pid : Option String)
    (event : MessagingEvent) (msg : MessengerMessage) (db : DB)
    (hmsg : event.message = some msg)
    (hex : ∃ m ∈ db.messages, m.facebookData.messageId = some msg.mid) :
    SaveWebhookResponse.getOrCreateConversationByMessenger env integ pid event db
      = .ok (none, db, []) := by
  obtain ⟨m, hm, hmm⟩ := hex
  have hfind : (db.messages.find? (fun x => x.facebookData.messageId = some msg.mid)).isSome :=
    List.find?_isSome.mpr ⟨m, hm, by simp [hmm]⟩
  obtain ⟨m0, hm0⟩ := Option.isSome_iff_exists.mp hfind
  simp [SaveWebhookResponse.getOrCreateConversationByMessenger, hmsg, hm0]

/-- C3 (amended): an already-recorded platform event id causes a silent
skip with no write in both paths, and a messenger event is persisted
exactly once across two deliveries; but for a feed comment the first
delivery itself can store the same comment id twice (see the
counterexample), so one message per comment id does not hold in general.
Part one: delivering a fresh messenger event yields exactly one message
with its mid, and redelivering it afterwards is a no-op. Part two: a feed
comment-add whose comment id is already recorded is skipped with the store
unchanged and no effects. -/
theorem C3_dedup_by_event_id :
    (∀ (env : Env) (integ : Integration) (pageId : String) (event : MessagingEvent)
        (msg : MessengerMessage) (db : DB),
      event.message = some msg → countWithMessageId db msg.mid = 0 →
      ∃ res : Option Nat × DB × List String,
        SaveWebhookResponse.getOrCreateConversationByMessenger env integ (some pageId) event db
          = .ok res ∧
        countWithMessageId res.2.1 msg.mid = 1 ∧
        SaveWebhookResponse.getOrCreateConversationByMessenger env integ (some pageId) event res.2.1
          = .ok (none, res.2.1, [])) ∧
    (∀ (env : Env) (integ : Integration) (pid : Option String) (value : FeedValue) (db : DB)
        (fd : FacebookIntegrationData) (cid : String),
      integ.facebookData = some fd → value.verb = some "add" → value.item = some "comment" →
      value.comment_id = some cid → cid ≠ "" →
      (∃ m ∈ db.messages, m.facebookData.commentId = some cid) →
      SaveWebhookResponse.getOrCreateConversationByFeed env integ pid value db
        = .ok (none, db, [])) := by
  constructor
  · intro env integ pageId event msg db hmsg h0
    have hfind := count_zero_find_none h0
    obtain ⟨res0, hgoc, hcount⟩ :=
      getOrCreateConversation_noPost_count env integ pageId
        { findSelector := some (messengerFindSelector event.senderId event.recipientId)
          status := CONVERSATION_STATUSES.NEW
          senderId := event.senderId
          facebookData :=
            { kind := FACEBOOK_DATA_KINDS.MESSENGER, senderId := event.senderId
              senderName := event.senderName, recipientId := some event.recipientId }
          content := jsOrStr msg.text "..."
          attachments := (msg.attachments.getD []).map
            (fun a => { type := a.type, url := a.payloadUrl.getD "" : AttachmentOut })
          msgFacebookData := { messageId := some msg.mid } } db msg.mid rfl rfl
    rw [h0] at hcount
    refine ⟨(some res0.1, res0.2.1, res0.2.2), ?_, hcount, ?_⟩
    · simp [SaveWebhookResponse.getOrCreateConversationByMessenger, hmsg, hfind, hgoc]
    · exact byMessenger_skip env integ (some pageId) event msg res0.2.1 hmsg
        (count_pos_exists (by omega))
  · intro env integ pid value db fd cid hfd hverb hitem hcid hcne hex
    obtain ⟨m, hm, hmm⟩ := hex
    have hfind : (db.messages.find? (fun x => x.facebookData.commentId = value.comment_id)).isSome :=
      List.find?_isSome.mpr ⟨m, hm, by simp [hmm, hcid]⟩
    have htr : truthyStr value.comment_id = true := by simp [hcid, truthyStr, hcne]
    simp [SaveWebhookResponse.getOrCreateConversationByFeed, hfd, hverb, hitem, htr, hfind]

/-- Environment for the C3 counterexample: the triggering comment c has
parent par, and the children listing of par fetched during backfill already
contains c, which is what the platform reports once the comment exists. -/
def envW3 : Env :=
  { pageTokenResp := some "tok"
    profile := fun _ => { name := some "U N" }
    profilePic := fun _ => none
    postObjectId := fun s => s
    postInfo := fun s => { id := s, fromId := "pf", fromName := "PF" }
    commentInfo := fun s =>
      if s = "c" then { id := "c", parent := some "par", fromId := "u", fromName := "U" }
      else { id := s, fromId := "cf", fromName := "CF" }
    commentsOf := fun s =>
      if s = "par" then [{ id := "c", fromId := "u", fromName := "U", message := some "hi" }]
      else [] }

/-- A comment-add event on post P for comment c whose parent is par. -/
def valW3 : FeedValue :=
  { item := some "comment", verb := some "add", comment_id := some "c", post_id := some "P"
    parent_id := some "par", fromId := "u", fromName := "U", message := some "hi" }

/-- Number of messages carrying a comment id in the store a feed run
produced (0 on error). -/
def runFeedCommentCount (r : Except String (Option Nat × DB × List String)) (cid : String) : Nat :=
  match r with
  | .ok (_, db, _) => countWithCommentId db cid
  | .error _ => 0

/-- Counterexample for C3 as stated: a single first delivery of the
comment-add event for c persists two messages with commentId c - the
parent-thread backfill inserts c and then the main ingestion inserts it
again - so exactly one persisted message per comment id fails even though
redelivery is skipped. -/
theorem C3_counterexample_first_delivery_double_insert :
    runFeedCommentCount
      (SaveWebhookResponse.getOrCreateConversationByFeed envW3 integW (some "pg") valW3 DB.empty)
      "c" = 2 := by decide

/-- A stored message already carrying comment id c, for the C3 witness. -/
def msgW3 : FbMessage :=
  { _id := 0, conversationId := 0, customerId := 0, content := "x"
    facebookData := { commentId := some "c" } }

/-- Witness for the amended C3: a concrete fresh messenger delivery persists
exactly one message and its redelivery is a no-op; a concrete feed
comment-add whose comment id is recorded is skipped unchanged. -/
theorem C3_witness :
    (∃ res : Option Nat × DB × List String,
      SaveWebhookResponse.getOrCreateConversationByMessenger envW integW (some "pg") evW1 DB.empty
        = .ok res ∧
      countWithMessageId res.2.1 "m1" = 1 ∧
      SaveWebhookResponse.getOrCreateConversationByMessenger envW integW (some "pg") evW1 res.2.1
        = .ok (none, res.2.1, [])) ∧
    SaveWebhookResponse.getOrCreateConversationByFeed envW3 integW (some "pg") valW3
        { DB.empty with messages := [msgW3], nextMsgId := 1 }
      = .ok (none, { DB.empty with messages := [msgW3], nextMsgId := 1 }, []) :=
  ⟨C3_dedup_by_event_id.1 envW integW "pg" evW1 { mid := "m1", text := some "hi" } DB.empty rfl rfl,
   C3_dedup_by_event_id.2 envW3 integW (some "pg") valW3
     { DB.empty with messages := [msgW3], nextMsgId := 1 } { pageIds := ["pg"] } "c"
     rfl rfl rfl rfl (by decide) ⟨msgW3, by decide, rfl⟩⟩

theorem generateCommentParams_commentId (cp : ICommentParams) :
    (generateCommentParams cp).commentId = if truthyStr cp.id then cp.id else cp.comment_id := by
  unfold generateCommentParams
  repeat' split
  all_goals rfl

theorem restoreParentPost_found (env : Env) (integ : Integration) (conv : Conversation)
    (uid : String) (fb : IMsgFacebook) (db : DB)
    (hpost : truthyStr fb.postId = true) (hitem : fb.item = some "comment")
    (hfound : (db.messages.find? (fun m => m.conversationId = conv._id &&
        m.facebookData.isPost = some true &&
        m.facebookData.postId = some (fb.postId.getD ""))).isSome) :
    SaveWebhookResponse.restoreParentPost env integ conv uid fb db = (false, db, []) := by
  obtain ⟨m0, hm0⟩ := Option.isSome_iff_exists.mp hfound
  simp [SaveWebhookResponse.restoreParentPost, hpost, hitem, hm0]

theorem restoreParentPost_creates (env : Env) (integ : Integration) (conv : Conversation)
    (uid : String) (fb : IMsgFacebook) (db : DB)
    (hpost : truthyStr fb.postId = true) (hitem : fb.item = some "comment")
    (hnone : db.messages.find? (fun m => m.conversationId = conv._id &&
        m.facebookData.isPost = some true &&
        m.facebookData.postId = some (fb.postId.getD "")) = none) :
    ∃ m ∈ (SaveWebhookResponse.restoreParentPost env integ conv uid fb db).2.1.messages,
      m.conversationId = conv._id ∧ m.facebookData.isPost = some true ∧
      m.facebookData.postId = some (env.postInfo (fb.postId.getD "")).id := by
  simp only [SaveWebhookResponse.restoreParentPost, hpost, hitem, hnone]
  simp only [if_neg (show ¬¬True from fun h => h trivial),
    if_neg (show ¬(some "comment" ≠ some "comment") from fun h => h rfl)]
  cases hpar : (env.commentInfo (fb.commentId.getD "")).parent with
  | none =>
    simp only [hpar, createMessage_messages]
    refine ⟨_, List.mem_append_right _ (List.mem_singleton_self _), rfl, ?_, ?_⟩
    · simp [generatePostParams_isPost]
    · simp [generatePostParams_postId]
  | some parentId0 =>
    simp only [hpar]
    refine ⟨_, createMessageFromComments_mem env integ conv uid _ _ _
      (by rw [createMessage_messages]
          exact List.mem_append_right _ (List.mem_singleton_self _)), rfl, ?_, ?_⟩
    · simp [generatePostParams_isPost]
    · simp [generatePostParams_postId]

theorem createMessage_commentCount (env : Env) (integ : Integration) (conv : Conversation)
    (uid content : String) (atts : List AttachmentOut) (fbd : IMsgFacebook) (db : DB)
    (cv : Nat) (cid : String) :
    countCommentInConv
        (SaveWebhookResponse.createMessage env integ conv uid content atts fbd db).2.1 cv cid
      = countCommentInConv db cv cid +
        (if conv._id = cv ∧ fbd.commentId = some cid then 1 else 0) := by
  unfold countCommentInConv
  rw [createMessage_messages, List.filter_append]
  by_cases h : conv._id = cv ∧ fbd.commentId = some cid
  · simp [h.1, h.2]
  · rw [if_neg h]
    rcases not_and_or.mp h with h1 | h1 <;> simp [h1]

theorem createMessageFromComments_no_dup (env : Env) (integ : Integration)
    (conv : Conversation) (uid : String) :
    ∀ (comments : List CommentResp) (db : DB) (cid : String),
      (∃ m ∈ db.messages, m.conversationId = conv._id ∧ m.facebookData.commentId = some cid) →
      countCommentInConv
          ((SaveWebhookResponse.createMessageFromComments env integ conv uid comments db).1)
          conv._id cid
        = countCommentInConv db conv._id cid := by
  intro comments
  induction comments with
  | nil => intro db cid _; simp [SaveWebhookResponse.createMessageFromComments]
  | cons c rest ih =>
    intro db cid hex
    by_cases hid : c.id = ""
    · simp [SaveWebhookResponse.createMessageFromComments, hid]
    · cases hf : db.messages.find?
          (fun m => m.facebookData.commentId = some c.id && m.conversationId = conv._id) with
      | some m0 =>
        have hrec := ih db cid hex
        simpa [SaveWebhookResponse.createMessageFromComments, hid, hf] using hrec
      | none =>
        obtain ⟨m, hm, hc1, hc2⟩ := hex
        have hne : c.id ≠ cid := by
          intro heq
          rw [List.find?_eq_none] at hf
          have hcon := hf m hm
          simp [hc1, hc2, heq] at hcon
        simp only [SaveWebhookResponse.createMessageFromComments, hid, hf]
        simp only [ite_false, if_neg hid]
        rw [ih _ cid ?h2]
        case h2 =>
          refine ⟨m, ?_, hc1, hc2⟩
          rw [createMessage_messages]
          exact List.mem_append_left _ hm
        rw [createMessage_commentCount]
        simp [generateCommentParams_commentId, truthyStr, hid, hne]

/-- C4 (amended): restoreParentPost is a no-op (false, store unchanged)
whenever this conversation already holds an isPost message whose stored
postId equals the postId it is invoked with, and comment backfill never
duplicates a comment id already recorded in the conversation; a second
invocation for the same post and comment is therefore a no-op provided the
post info lookup returns the queried id (the source stores the id returned
by the lookup while checking against the queried one, so without that
stability the root post is duplicated - see the counterexample). -/
theorem C4_backfill_idempotence :
    (∀ (env : Env) (integ : Integration) (conv : Conversation) (uid : String)
        (fb : IMsgFacebook) (db : DB) (p : String),
      fb.postId = some p → p ≠ "" → fb.item = some "comment" →
      (env.postInfo p).id = p →
      SaveWebhookResponse.restoreParentPost env integ conv uid fb
          ((SaveWebhookResponse.restoreParentPost env integ conv uid fb db).2.1)
        = (false, (SaveWebhookResponse.restoreParentPost env integ conv uid fb db).2.1, [])) ∧
    (∀ (env : Env) (integ : Integration) (conv : Conversation) (uid : String)
        (fb : IMsgFacebook) (db : DB),
      (∃ m ∈ db.messages, m.conversationId = conv._id ∧ m.facebookData.isPost = some true ∧
        m.facebookData.postId = fb.postId) →
      SaveWebhookResponse.restoreParentPost env integ conv uid fb db = (false, db, [])) ∧
    (∀ (env : Env) (integ : Integration) (conv : Conversation) (uid : String)
        (comments : List CommentResp) (db : DB) (cid : String),
      (∃ m ∈ db.messages, m.conversationId = conv._id ∧ m.facebookData.commentId = some cid) →
      countCommentInConv
          ((SaveWebhookResponse.createMessageFromComments env integ conv uid comments db).1)
          conv._id cid
        = countCommentInConv db conv._id cid) := by
  refine ⟨?_, ?_, ?_⟩
  · intro env integ conv uid fb db p hp hpne hitem hstable
    have htr : truthyStr fb.postId = true := by simp [hp, truthyStr, hpne]
    have hgetD : fb.postId.getD "" = p := by simp [hp]
    cases hf : db.messages.find? (fun m => m.conversationId = conv._id &&
        m.facebookData.isPost = some true &&
        m.facebookData.postId = some (fb.postId.getD "")) with
    | some m0 =>
      have h1 : SaveWebhookResponse.restoreParentPost env integ conv uid fb db = (false, db, []) :=
        restoreParentPost_found env integ conv uid fb db htr hitem (by simp [hf])
      rw [h1]
      exact restoreParentPost_found env integ conv uid fb db htr hitem (by simp [hf])
    | none =>
      obtain ⟨m, hmem, hconv, hisPost, hpostId⟩ :=
        restoreParentPost_creates env integ conv uid fb db htr hitem hf
      apply restoreParentPost_found env integ conv uid fb _ htr hitem
      refine List.find?_isSome.mpr ⟨m, hmem, ?_⟩
      rw [hgetD] at hpostId
      rw [hstable] at hpostId
      simp [hconv, hisPost, hpostId, hgetD]
  · intro env integ conv uid fb db hex
    by_cases htr : truthyStr fb.postId = true
    · by_cases hitem : fb.item = some "comment"
      · apply restoreParentPost_found env integ conv uid fb db htr hitem
        obtain ⟨m, hm, h1, h2, h3⟩ := hex
        refine List.find?_isSome.mpr ⟨m, hm, ?_⟩
        cases hps : fb.postId with
        | none => rw [hps] at htr; simp [truthyStr] at htr
        | some s => simp [h1, h2, h3, hps]
      · have hbool : truthyStr fb.postId = true := htr
        simp [SaveWebhookResponse.restoreParentPost, hbool, hitem]
    · have hbool : truthyStr fb.postId = false := by
        revert htr; cases truthyStr fb.postId <;> simp
      simp [SaveWebhookResponse.restoreParentPost, hbool]
  · intro env integ conv uid comments db cid hex
    exact createMessageFromComments_no_dup env integ conv uid comments db cid hex

/-- Environment for the C4 counterexample: the post info lookup resolves
the queried raw webhook post id to the canonical id CANON, as the source
itself documents the platform does. -/
def envW4 : Env :=
  { pageTokenResp := some "tok"
    profile := fun _ => { name := some "U N" }
    profilePic := fun _ => none
    postObjectId := fun s => s
    postInfo := fun _ => { id := "CANON", fromId := "pf", fromName := "PF" }
    commentInfo := fun s => { id := s, fromId := "cf", fromName := "CF" }
    commentsOf := fun _ => [] }

/-- The conversation restoreParentPost works in for C4. -/
def convW4 : Conversation :=
  { _id := 0, integrationId := "i", customerId := 0, status := CONVERSATION_STATUSES.NEW
    content := "", messageCount := 0
    facebookData := { kind := FACEBOOK_DATA_KINDS.FEED, senderId := "u" } }

/-- Store holding only convW4. -/
def dbW4 : DB := { DB.empty with conversations := [convW4], nextConvId := 1 }

/-- The triggering comment facebook data carrying the raw post id. -/
def fbW4 : IMsgFacebook := { postId := some "raw", item := some "comment", commentId := some "c0" }

/-- Counterexample for C4 as stated: when the post info lookup returns
CANON for the queried raw id, a second invocation of restoreParentPost for
the same post and comment does not return false and do nothing - it
returns true and stores a second root-post message, leaving two isPost
messages in the conversation. -/
theorem C4_counterexample_unstable_post_id :
    (SaveWebhookResponse.restoreParentPost envW4 integW convW4 "u" fbW4
        ((SaveWebhookResponse.restoreParentPost envW4 integW convW4 "u" fbW4 dbW4).2.1)).1
      = true ∧
    countIsPost
      (SaveWebhookResponse.restoreParentPost envW4 integW convW4 "u" fbW4
        ((SaveWebhookResponse.restoreParentPost envW4 integW convW4 "u" fbW4 dbW4).2.1)).2.1 0
      = 2 := by
  constructor
  · decide
  · decide

/-- Root post message already recorded for postId P in conversation 0,
used by the C4 witness. -/
def msgW4 : FbMessage :=
  { _id := 0, conversationId := 0, customerId := 0, content := "post"
    facebookData := { postId := some "P", item := some "status", isPost := some true } }

/-- Comment facebook data over post P, for the C4 witness. -/
def fbW4s : IMsgFacebook := { postId := some "P", item := some "comment", commentId := some "c0" }

/-- Witness for the amended C4: with the stable environment envW (whose
post info lookup returns the queried id), a double invocation is a no-op;
an invocation over a conversation that already holds the root post returns
false and changes nothing; and backfill does not duplicate a recorded
comment id. -/
theorem C4_witness :
    (SaveWebhookResponse.restoreParentPost envW integW convW4 "u" fbW4s
        ((SaveWebhookResponse.restoreParentPost envW integW convW4 "u" fbW4s dbW4).2.1)
      = (false, (SaveWebhookResponse.restoreParentPost envW integW convW4 "u" fbW4s dbW4).2.1, [])) ∧
    (SaveWebhookResponse.restoreParentPost envW integW convW4 "u" fbW4s
        { DB.empty with conversations := [convW4], messages := [msgW4], nextConvId := 1, nextMsgId := 1 }
      = (false,
         { DB.empty with conversations := [convW4], messages := [msgW4], nextConvId := 1, nextMsgId := 1 },
         [])) ∧
    countCommentInConv
        ((SaveWebhookResponse.createMessageFromComments envW integW convW4 "u"
          [{ id := "c", fromId := "u", fromName := "U" }]
          { DB.empty with conversations := [convW4], messages := [msgW3], nextConvId := 1, nextMsgId := 1 }).1)
        convW4._id "c"
      = countCommentInConv
          { DB.empty with conversations := [convW4], messages := [msgW3], nextConvId := 1, nextMsgId := 1 }
          convW4._id "c" :=
  ⟨C4_backfill_idempotence.1 envW integW convW4 "u" fbW4s dbW4 "P" rfl (by decide) rfl rfl,
   C4_backfill_idempotence.2.1 envW integW convW4 "u" fbW4s _ ⟨msgW4, by decide, rfl, rfl, rfl⟩,
   C4_backfill_idempotence.2.2 envW integW convW4 "u" _ _ "c" ⟨msgW3, by decide, rfl, rfl⟩⟩
